import Mathlib

/-
Verification of the crawl4ai MCP server (src/index.ts) against its
natural-language specification.

The development shallowly embeds the TypeScript source:
  * JSON values are the inductive type `Json`; JavaScript truthiness,
    `typeof`, property access and string coercion are modelled explicitly.
  * `extractMarkdown`, `isValidCrawlRequest` and the `CallToolRequestSchema`
    handler (validation, retry loop, result-shape resolution, catch block)
    are translated function by function.
  * The outbound HTTP transport is an oracle `Nat → AttemptOutcome` giving,
    for each 1-based attempt number, either the resolved response body or
    the rejection value of the corresponding `axios.post` call.
  * Thrown JavaScript exceptions are `Except.error` values of type `JsError`
    (axios errors, `McpError`s, `TypeError`s).
-/

namespace Crawl4ai

/-- JSON values, as delivered by the crawling service or supplied as tool
arguments. Numbers are modelled as integers (no claim depends on
fractional numerics). -/
inductive Json where
  | null
  | bool (b : Bool)
  | num (n : Int)
  | str (s : String)
  | arr (elems : List Json)
  | obj (fields : List (String × Json))

/-- JavaScript truthiness of a JSON value: `null`, `false`, `0` and `""`
are falsy; every array and object (including `[]` and `{}`) is truthy. -/
def Json.isTruthy : Json → Bool
  | .null => false
  | .bool b => b
  | .num n => n != 0
  | .str s => s != ""
  | .arr _ => true
  | .obj _ => true

/-- JavaScript `typeof` for JSON values (`typeof null` is `"object"`,
arrays are `"object"`). -/
def Json.jsTypeof : Json → String
  | .null => "object"
  | .bool _ => "boolean"
  | .num _ => "number"
  | .str _ => "string"
  | .arr _ => "object"
  | .obj _ => "object"

/-- Property access `v.k` on a non-null JSON value: field lookup on an
object, `undefined` (here `none`) on every other shape. Access on `null`
throws in JavaScript and is handled at each use site. -/
def Json.getProp? : Json → String → Option Json
  | .obj fields, key => (fields.find? (fun p => p.1 == key)).map (fun p => p.2)
  | _, _ => none

mutual

/-- JavaScript string coercion `String(v)` as it acts inside template
literals and `Array.prototype.join`: strings are verbatim, arrays join
their coerced elements with `","` and plain objects render as
`"[object Object]"`. -/
def Json.jsToString : Json → String
  | .null => "null"
  | .bool b => if b then "true" else "false"
  | .num n => toString n
  | .str s => s
  | .arr elems => String.intercalate "," (jsJoinParts elems)
  | .obj _ => "[object Object]"

/-- Element coercion used by `Array.prototype.join`: `null` elements
become the empty string, every other element is coerced with `String`. -/
def jsJoinParts : List Json → List String
  | [] => []
  | Json.null :: rest => "" :: jsJoinParts rest
  | j :: rest => Json.jsToString j :: jsJoinParts rest

end

/-- Thrown JavaScript error values observed by the handler's catch block.
`axios` errors satisfy `axios.isAxiosError`; `mcp` errors are `McpError`
protocol faults; `typeError` covers runtime `TypeError`s such as property
access on `null`. -/
inductive ErrorCode where
  | MethodNotFound
  | InvalidParams
  | InternalError

/-- The `error.response` part of an axios error: HTTP status and response
body, present only when the server answered with a non-2xx status. -/
structure AxiosResponseErr where
  status : Nat
  data : Json

/-- The `error.config` part of an axios error: the request method and URL
that were attempted, each possibly absent. -/
structure AxiosConfigInfo where
  method : Option String
  url : Option String

/-- An axios transport error: optional HTTP response, optional request
config, and the error's own `message` string. -/
structure AxiosErr where
  response : Option AxiosResponseErr
  config : Option AxiosConfigInfo
  message : String

/-- A thrown JavaScript value, as discriminated by the handler's catch
block (`axios.isAxiosError` keeps the `axios` branch apart). -/
inductive JsError where
  | axios (e : AxiosErr)
  | mcp (code : ErrorCode) (message : String)
  | typeError (message : String)
  | other (message : String)

/-- Third and final branches of `extractMarkdown`:
`else if (typeof result === 'string')` and the sentinel fallback. -/
def extractMarkdownThird (result : Json) : Except JsError Json :=
  match result with
  | .str s => .ok (.str s)
  | _ => .ok (.str "Error: No markdown content available for this URL")

/-- Second branch of `extractMarkdown`: `else if (result.markdown)`. -/
def extractMarkdownSecond (result : Json) : Except JsError Json :=
  match result.getProp? "markdown" with
  | some md => if md.isTruthy then .ok md else extractMarkdownThird result
  | none => extractMarkdownThird result

/-- `extractMarkdown`, src/index.ts lines 46-58, translated branch by
branch.  `result.markdown_v2 && result.markdown_v2.markdown_with_citations`
is a truthiness test; property access on a `null` result throws a
`TypeError`, which the embedding surfaces as `Except.error`. -/
def extractMarkdown (result : Json) : Except JsError Json :=
  match result with
  | .null => .error (.typeError "Cannot read properties of null (reading markdown_v2)")
  | _ =>
    match result.getProp? "markdown_v2" with
    | some mv2 =>
      if mv2.isTruthy then
        match mv2.getProp? "markdown_with_citations" with
        | some mwc => if mwc.isTruthy then .ok mwc else extractMarkdownSecond result
        | none => extractMarkdownSecond result
      else extractMarkdownSecond result
    | none => extractMarkdownSecond result

/-- `isValidCrawlRequest`, src/index.ts lines 39-43: reject falsy or
non-object arguments, then require `urls` to be an array whose every
element has `typeof === 'string'`.  `args` is `none` when the call
carried no arguments at all. -/
def isValidCrawlRequest (args : Option Json) : Bool :=
  match args with
  | none => false
  | some j =>
    if !j.isTruthy then false
    else if j.jsTypeof != "object" then false
    else
      match j.getProp? "urls" with
      | some (.arr urls) => urls.all (fun u => u.jsTypeof == "string")
      | _ => false

/-- Outcome of one `axios.post` attempt: the promise resolves with a
response body, or rejects with a thrown error value. -/
inductive AttemptOutcome where
  | success (body : Json)
  | failure (err : JsError)

/-- Whether an attempt outcome is a transport success. -/
def AttemptOutcome.isSuccess : AttemptOutcome → Bool
  | .success _ => true
  | .failure _ => false

/-- State left behind by the retry loop of src/index.ts lines 149-185:
the response body of the breaking attempt (if any), the `lastError`
slot, the number of POST attempts issued, and the backoff delays (in
milliseconds) requested between attempts, in order. -/
structure LoopResult where
  response : Option Json
  lastError : Option JsError
  attempts : Nat
  delays : List Nat

/-- The `for (let attempt = 1; attempt <= this.retryCount; attempt++)`
loop, iterating over the list of attempt numbers.  A successful
`axios.post` breaks out; a failure records `lastError` and, when
`attempt < retryCount`, requests a backoff delay of
`1000 * Math.pow(2, attempt - 1)` milliseconds before the next attempt. -/
def runAttempts (oracle : Nat → AttemptOutcome) (retryCount : Nat)
    (lastErr : Option JsError) : List Nat → LoopResult
  | [] => ⟨none, lastErr, 0, []⟩
  | attempt :: rest =>
    match oracle attempt with
    | .success body => ⟨some body, lastErr, 1, []⟩
    | .failure e =>
      if attempt < retryCount then
        let r := runAttempts oracle retryCount (some e) rest
        ⟨r.response, r.lastError, r.attempts + 1, 1000 * 2 ^ (attempt - 1) :: r.delays⟩
      else
        ⟨none, some e, 1, []⟩

/-- `private retryCount = 3` (src/index.ts line 63). -/
def crawlRetryCount : Nat := 3

/-- The retry loop as run by the handler: attempts numbered 1 up to
`retryCount`, starting with an empty `lastError` slot. -/
def runCrawlLoop (oracle : Nat → AttemptOutcome) : LoopResult :=
  runAttempts oracle crawlRetryCount none (List.range' 1 crawlRetryCount)

/-- Result-shape resolution, src/index.ts lines 200-208: a truthy
`results` field that is an array is used; else a body that is itself an
array is used; else the whole body becomes a one-element list. -/
def resolveResults (data : Json) : List Json :=
  match data.getProp? "results" with
  | some (.arr rs) => rs
  | _ =>
    match data with
    | .arr rs => rs
    | _ => [data]

/-- One `{ type: 'text', text }` content block of a tool reply. -/
structure TextContent where
  ttype : String
  text : String

/-- The handler's reply value: content blocks plus the optional
`isError` flag (absent on success). -/
structure ToolCallResult where
  content : List TextContent
  isError : Option Bool

/-- Trace of one `CallToolRequestSchema` dispatch: the protocol outcome
(reply or thrown fault), the number of outbound POST attempts issued,
and the backoff delays requested. -/
structure DispatchTrace where
  result : Except JsError ToolCallResult
  attemptsMade : Nat
  delays : List Nat

/-- `error.response?.data?.<key>`: optional chaining yields `undefined`
when the response is absent or its data is `null`. -/
def respDataField (ae : AxiosErr) (key : String) : Option Json :=
  match ae.response with
  | none => none
  | some r =>
    match r.data with
    | .null => none
    | d => d.getProp? key

/-- JavaScript `a || b` on possibly-undefined JSON values: the left value
when truthy, otherwise the right operand. -/
def jsOrValue (a b : Option Json) : Option Json :=
  match a with
  | some v => if v.isTruthy then some v else b
  | none => b

/-- Message selection of the catch block (src/index.ts lines 227-229):
`error.response?.data?.message || error.response?.data?.detail ||
error.message`, with the final value coerced to a string by the template
literal. -/
def pickMessage (ae : AxiosErr) : String :=
  match jsOrValue (respDataField ae "message") (respDataField ae "detail") with
  | some v => if v.isTruthy then v.jsToString else ae.message
  | none => ae.message

/-- `(${statusCode})` in the catch block: `error.response?.status`, which
renders as `"undefined"` inside the template literal when absent. -/
def statusCodeText (ae : AxiosErr) : String :=
  match ae.response with
  | some r => toString r.status
  | none => "undefined"

/-- `toUpperCase()` on the characters of a string (ASCII as relevant to
HTTP method names). -/
def jsToUpper (s : String) : String :=
  String.mk (s.data.map Char.toUpper)

/-- `requestInfo` of the catch block (src/index.ts lines 234-236):
`` `${error.config.method?.toUpperCase()} ${error.config.url}` `` when a
config is present, `'Unknown request'` otherwise. -/
def requestInfoText (ae : AxiosErr) : String :=
  match ae.config with
  | some c =>
    (match c.method with
     | some m => jsToUpper m
     | none => "undefined") ++ " " ++
    (match c.url with
     | some u => u
     | none => "undefined")
  | none => "Unknown request"

/-- The catch block, src/index.ts lines 224-251: an axios error becomes a
soft `isError: true` reply embedding status, request info and message;
every other thrown value is re-raised. -/
def catchHandler (e : JsError) : Except JsError ToolCallResult :=
  match e with
  | .axios ae =>
    .ok
      { content :=
          [{ ttype := "text",
             text := "Crawling service error (" ++ statusCodeText ae ++ ") for "
               ++ requestInfoText ae ++ ": " ++ pickMessage ae }],
        isError := some true }
  | _ => .error e

/-- `results.map((result) => extractMarkdown(result))`, evaluated left to
right; a thrown `TypeError` escapes at the first offending element, as it
does from `Array.prototype.map`. -/
def extractAll : List Json → Except JsError (List Json)
  | [] => .ok []
  | r :: rest =>
    match extractMarkdown r with
    | .error e => .error e
    | .ok v =>
      match extractAll rest with
      | .error e => .error e
      | .ok vs => .ok (v :: vs)

/-- Processing of a successful transport body, src/index.ts lines
192-222: a falsy body raises `McpError(InternalError, ...)`; otherwise
the resolved results are each passed through `extractMarkdown` (a thrown
`TypeError` propagates) and the extracted values are joined with
`'\n\n---\n\n'` into a single text block with no `isError` flag. -/
def dispatchSuccessBody (body : Json) : Except JsError ToolCallResult :=
  if !body.isTruthy then
    .error (.mcp .InternalError "Empty response from crawling service")
  else
    match extractAll (resolveResults body) with
    | .error e => .error e
    | .ok vals =>
      .ok
        { content :=
            [{ ttype := "text",
               text := String.intercalate "\n\n---\n\n" (vals.map Json.jsToString) }],
          isError := none }

/-- Body of the outer `try` (src/index.ts lines 147-222): re-throw the
last error if no attempt produced a response, otherwise process the
response body. -/
def dispatchTry (loop : LoopResult) : Except JsError ToolCallResult :=
  match loop.response with
  | none => .error (loop.lastError.getD (.other "undefined"))
  | some body => dispatchSuccessBody body

/-- `try { ... } catch (error) { ... }` around the dispatch. -/
def runCatch (tried : Except JsError ToolCallResult) : Except JsError ToolCallResult :=
  match tried with
  | .ok r => .ok r
  | .error e => catchHandler e

/-- The `CallToolRequestSchema` handler, src/index.ts lines 127-252:
tool-name check, argument validation, retry loop, body processing and
catch block.  The trace records how many POST attempts were issued and
which backoff delays were requested. -/
def handleCallTool (toolName : String) (args : Option Json)
    (oracle : Nat → AttemptOutcome) : DispatchTrace :=
  if toolName != "crawl_urls" then
    ⟨.error (.mcp .MethodNotFound ("Unknown tool: " ++ toolName)), 0, []⟩
  else if !isValidCrawlRequest args then
    ⟨.error (.mcp .InvalidParams "Invalid crawl request parameters"), 0, []⟩
  else
    let loop := runCrawlLoop oracle
    ⟨runCatch (dispatchTry loop), loop.attempts, loop.delays⟩

/-- `DEFAULT_CONFIG`, src/index.ts lines 20-37, as a JSON field list. -/
def DEFAULT_CONFIG : List (String × Json) :=
  [("priority", .num 10),
   ("magic", .bool true),
   ("crawler_params", .obj
     [("headless", .bool true),
      ("page_timeout", .num 30000),
      ("remove_overlay_elements", .bool true),
      ("browser_type", .str "chromium"),
      ("scan_full_page", .bool true),
      ("user_agent_mode", .str "random"),
      ("user_agent_generator_config", .obj
        [("device_type", .str "mobile"),
         ("os_type", .str "android")])]),
   ("bypass_cache", .bool true),
   ("ignore_images", .bool true)]

/-- Outbound POST body `{ ...DEFAULT_CONFIG, urls }` (src/index.ts lines
167-170). -/
def crawlPostBody (urls : List Json) : Json :=
  .obj (DEFAULT_CONFIG ++ [("urls", .arr urls)])

/-- The request options an axios call is configured with, as far as the
source sets them: base URL, headers and the request timeout in
milliseconds (`none` when no timeout option is given, axios's default,
meaning the request never times out on the client side). -/
structure HttpRequestConfig where
  baseURL : Option String
  headers : List (String × String)
  timeout : Option Nat

/-- The `Authorization: Bearer <token>` header list, attached only when a
token is configured (src/index.ts lines 79-85 and 159-165). -/
def authHeaders (authToken : Option String) : List (String × String) :=
  match authToken with
  | some t => [("Authorization", "Bearer " ++ t)]
  | none => []

/-- `axios.create({ baseURL, headers, timeout: 60000 })`, src/index.ts
lines 87-92.  This instance is used only for the startup `/health`
probe. -/
def axiosInstanceConfig (apiUrl : String) (authToken : Option String) : HttpRequestConfig :=
  { baseURL := some apiUrl, headers := authHeaders authToken, timeout := some 60000 }

/-- The per-attempt request options passed to the bare `axios.post` call
of the retry loop (src/index.ts lines 167-172): only `headers` is set;
no `timeout` option is given. -/
def crawlPostRequestConfig (authToken : Option String) : HttpRequestConfig :=
  { baseURL := none, headers := authHeaders authToken, timeout := none }

/-! ### Unfolding lemmas for the retry loop -/

lemma range_one_three : List.range' 1 3 = [1, 2, 3] := rfl

lemma runCrawlLoop_succ1 (oracle : Nat → AttemptOutcome) (b : Json)
    (h1 : oracle 1 = .success b) :
    runCrawlLoop oracle = ⟨some b, none, 1, []⟩ := by
  simp [runCrawlLoop, crawlRetryCount, range_one_three, runAttempts, h1]

lemma runCrawlLoop_fail1_succ2 (oracle : Nat → AttemptOutcome) (e1 : JsError) (b : Json)
    (h1 : oracle 1 = .failure e1) (h2 : oracle 2 = .success b) :
    runCrawlLoop oracle = ⟨some b, some e1, 2, [1000]⟩ := by
  simp [runCrawlLoop, crawlRetryCount, range_one_three, runAttempts, h1, h2]

lemma runCrawlLoop_fail12_succ3 (oracle : Nat → AttemptOutcome) (e1 e2 : JsError) (b : Json)
    (h1 : oracle 1 = .failure e1) (h2 : oracle 2 = .failure e2) (h3 : oracle 3 = .success b) :
    runCrawlLoop oracle = ⟨some b, some e2, 3, [1000, 2000]⟩ := by
  simp [runCrawlLoop, crawlRetryCount, range_one_three, runAttempts, h1, h2, h3]

lemma runCrawlLoop_fail123 (oracle : Nat → AttemptOutcome) (e1 e2 e3 : JsError)
    (h1 : oracle 1 = .failure e1) (h2 : oracle 2 = .failure e2) (h3 : oracle 3 = .failure e3) :
    runCrawlLoop oracle = ⟨none, some e3, 3, [1000, 2000]⟩ := by
  simp [runCrawlLoop, crawlRetryCount, range_one_three, runAttempts, h1, h2, h3]

lemma handleCallTool_valid (args : Option Json) (oracle : Nat → AttemptOutcome)
    (hv : isValidCrawlRequest args = true) :
    handleCallTool "crawl_urls" args oracle =
      ⟨runCatch (dispatchTry (runCrawlLoop oracle)),
       (runCrawlLoop oracle).attempts, (runCrawlLoop oracle).delays⟩ := by
  simp [handleCallTool, hv]

lemma runCrawlLoop_shape (oracle : Nat → AttemptOutcome) :
    (runCrawlLoop oracle).attempts =
      (if (oracle 1).isSuccess then 1 else if (oracle 2).isSuccess then 2 else 3) ∧
    (runCrawlLoop oracle).delays =
      (if (oracle 1).isSuccess then []
       else if (oracle 2).isSuccess then [1000] else [1000, 2000]) := by
  cases k1 : oracle 1 with
  | success b =>
    rw [runCrawlLoop_succ1 oracle b k1]
    simp [AttemptOutcome.isSuccess, k1]
  | failure e1 =>
    cases k2 : oracle 2 with
    | success b =>
      rw [runCrawlLoop_fail1_succ2 oracle e1 b k1 k2]
      simp [AttemptOutcome.isSuccess, k1, k2]
    | failure e2 =>
      cases k3 : oracle 3 with
      | success b =>
        rw [runCrawlLoop_fail12_succ3 oracle e1 e2 b k1 k2 k3]
        simp [AttemptOutcome.isSuccess, k1, k2]
      | failure e3 =>
        rw [runCrawlLoop_fail123 oracle e1 e2 e3 k1 k2 k3]
        simp [AttemptOutcome.isSuccess, k1, k2]

lemma handleCallTool_attempts (args : Option Json) (oracle : Nat → AttemptOutcome)
    (hv : isValidCrawlRequest args = true) :
    (handleCallTool "crawl_urls" args oracle).attemptsMade = (runCrawlLoop oracle).attempts := by
  rw [handleCallTool_valid args oracle hv]

lemma handleCallTool_delays (args : Option Json) (oracle : Nat → AttemptOutcome)
    (hv : isValidCrawlRequest args = true) :
    (handleCallTool "crawl_urls" args oracle).delays = (runCrawlLoop oracle).delays := by
  rw [handleCallTool_valid args oracle hv]

lemma handleCallTool_result (args : Option Json) (oracle : Nat → AttemptOutcome)
    (hv : isValidCrawlRequest args = true) :
    (handleCallTool "crawl_urls" args oracle).result =
      runCatch (dispatchTry (runCrawlLoop oracle)) := by
  rw [handleCallTool_valid args oracle hv]

/-- C1: for every tool call that passes validation, at most 3 outbound
POST attempts are issued; the delay requested before retry attempt n+1
is exactly 1000 * 2^(n-1) milliseconds (1s then 2s, i.e. the delay list
is a prefix of [1000, 2000] of length attempts-1); the retry schedule
depends only on which attempts succeed, never on the kind of failure
(no retryable/non-retryable distinction); and if all 3 attempts fail,
the error handed to the catch block is the third attempt's error, the
earlier ones being discarded. -/
theorem crawl_retry_policy (args : Option Json) (oracle : Nat → AttemptOutcome)
    (hv : isValidCrawlRequest args = true) :
    (handleCallTool "crawl_urls" args oracle).attemptsMade ≤ 3 ∧
    (handleCallTool "crawl_urls" args oracle).delays =
      List.take ((handleCallTool "crawl_urls" args oracle).attemptsMade - 1) [1000, 2000] ∧
    (∀ e1 e2 e3 : JsError, oracle 1 = .failure e1 → oracle 2 = .failure e2 →
      oracle 3 = .failure e3 →
      (handleCallTool "crawl_urls" args oracle).result = catchHandler e3 ∧
      (handleCallTool "crawl_urls" args oracle).attemptsMade = 3) ∧
    (∀ oracle2 : Nat → AttemptOutcome,
      (∀ i : Nat, (oracle i).isSuccess = (oracle2 i).isSuccess) →
      (handleCallTool "crawl_urls" args oracle).attemptsMade =
        (handleCallTool "crawl_urls" args oracle2).attemptsMade ∧
      (handleCallTool "crawl_urls" args oracle).delays =
        (handleCallTool "crawl_urls" args oracle2).delays) := by
  obtain ⟨ha, hd⟩ := runCrawlLoop_shape oracle
  refine ⟨?_, ?_, ?_, ?_⟩
  · rw [handleCallTool_attempts args oracle hv, ha]
    cases (oracle 1).isSuccess <;> cases (oracle 2).isSuccess <;> simp
  · rw [handleCallTool_delays args oracle hv, handleCallTool_attempts args oracle hv, ha, hd]
    cases (oracle 1).isSuccess <;> cases (oracle 2).isSuccess <;> simp
  · intro e1 e2 e3 f1 f2 f3
    rw [handleCallTool_result args oracle hv, handleCallTool_attempts args oracle hv,
      runCrawlLoop_fail123 oracle e1 e2 e3 f1 f2 f3]
    exact ⟨rfl, rfl⟩
  · intro oracle2 hsame
    obtain ⟨ha2, hd2⟩ := runCrawlLoop_shape oracle2
    rw [handleCallTool_attempts args oracle hv, handleCallTool_attempts args oracle2 hv,
      handleCallTool_delays args oracle hv, handleCallTool_delays args oracle2 hv,
      ha, hd, ha2, hd2, hsame 1, hsame 2]
    exact ⟨rfl, rfl⟩

/-- A network-level axios rejection (no HTTP response attached). -/
def axErrSample : AxiosErr :=
  ⟨none, some ⟨some "post", some "http://127.0.0.1:11235/crawl_direct"⟩,
   "connect ECONNREFUSED 127.0.0.1:11235"⟩

/-- Transport oracle on which every attempt fails with the same error. -/
def oracleAllFail : Nat → AttemptOutcome := fun _ => .failure (.axios axErrSample)

/-- A well-formed argument object with one URL. -/
def argsSample : Option Json :=
  some (.obj [("urls", .arr [.str "https://example.com"])])

theorem crawl_retry_policy_witness :
    isValidCrawlRequest argsSample = true ∧
    (handleCallTool "crawl_urls" argsSample oracleAllFail).attemptsMade = 3 ∧
    (handleCallTool "crawl_urls" argsSample oracleAllFail).delays = [1000, 2000] ∧
    (handleCallTool "crawl_urls" argsSample oracleAllFail).result =
      catchHandler (.axios axErrSample) :=
  ⟨rfl,
   ((crawl_retry_policy argsSample oracleAllFail rfl).2.2.1 _ _ _ rfl rfl rfl).2,
   (crawl_retry_policy argsSample oracleAllFail rfl).2.1,
   ((crawl_retry_policy argsSample oracleAllFail rfl).2.2.1 _ _ _ rfl rfl rfl).1⟩

/-- Result-sequence resolution as the specification words it: (a) an
object whose `results` field is a sequence uses that sequence; (b) a body
that is itself a sequence is used directly; (c) any other body becomes a
one-element sequence holding just that body. -/
def resolveResultsSpec (body : Json) : List Json :=
  match body with
  | .obj fields =>
    match (Json.obj fields).getProp? "results" with
    | some (.arr rs) => rs
    | _ => [Json.obj fields]
  | .arr rs => rs
  | _ => [body]

lemma resolveResults_eq_spec (body : Json) :
    resolveResults body = resolveResultsSpec body := by
  cases body with
  | obj fields =>
    rcases hp : Json.getProp? (Json.obj fields) "results" with _ | v
    · simp [resolveResults, resolveResultsSpec, hp]
    · cases v <;> simp [resolveResults, resolveResultsSpec, hp]
  | null => rfl
  | bool b => rfl
  | num n => rfl
  | str s => rfl
  | arr rs => rfl

/-- C2: for a truthy transport-success body, the result sequence is
resolved exactly as the spec orders it (object-with-results, bare
sequence, singleton fallback), and when the Normalizer succeeds on every
element the reply is a single successful text block joining the
normalized outputs in order with the separator between them. -/
theorem result_shape_and_join (args : Option Json) (oracle : Nat → AttemptOutcome)
    (body : Json) (vals : List Json)
    (hv : isValidCrawlRequest args = true)
    (hresp : (runCrawlLoop oracle).response = some body)
    (hne : body.isTruthy = true)
    (hvals : extractAll (resolveResults body) = Except.ok vals) :
    resolveResults body = resolveResultsSpec body ∧
    (handleCallTool "crawl_urls" args oracle).result =
      Except.ok
        { content :=
            [{ ttype := "text",
               text := String.intercalate "\n\n---\n\n" (vals.map Json.jsToString) }],
          isError := none } := by
  refine ⟨resolveResults_eq_spec body, ?_⟩
  rw [handleCallTool_result args oracle hv]
  simp [dispatchTry, hresp, dispatchSuccessBody, hne, hvals, runCatch]

/-- The service body `{results:[{markdown:"X"},{markdown:"Y"}]}`. -/
def bodyXY : Json :=
  .obj [("results", .arr [.obj [("markdown", .str "X")], .obj [("markdown", .str "Y")]])]

/-- Oracle whose first attempt already succeeds with `bodyXY`. -/
def oracleXY : Nat → AttemptOutcome := fun _ => .success bodyXY

theorem result_shape_and_join_witness :
    isValidCrawlRequest argsSample = true ∧
    (runCrawlLoop oracleXY).response = some bodyXY ∧
    Json.isTruthy bodyXY = true ∧
    extractAll (resolveResults bodyXY) = Except.ok [Json.str "X", Json.str "Y"] ∧
    (handleCallTool "crawl_urls" argsSample oracleXY).result =
      Except.ok
        { content := [{ ttype := "text", text := "X\n\n---\n\nY" }],
          isError := none } :=
  ⟨rfl, rfl, rfl, rfl,
   (result_shape_and_join argsSample oracleXY bodyXY [Json.str "X", Json.str "Y"]
     rfl rfl rfl rfl).2⟩

lemma resolveResults_nil_truthy (body : Json) (h : resolveResults body = []) :
    body.isTruthy = true := by
  cases body with
  | obj fields => rfl
  | arr rs => rfl
  | null => exact absurd h (by simp [resolveResults, Json.getProp?])
  | bool b => exact absurd h (by simp [resolveResults, Json.getProp?])
  | num n => exact absurd h (by simp [resolveResults, Json.getProp?])
  | str s => exact absurd h (by simp [resolveResults, Json.getProp?])

/-- C10: when the resolved result sequence of a transport-success body is
empty (for example the body `{results: []}`), the reply is a successful
`ToolCallResult` (no `isError` flag) whose single text block is the empty
string. -/
theorem empty_results_empty_reply (args : Option Json) (oracle : Nat → AttemptOutcome)
    (body : Json)
    (hv : isValidCrawlRequest args = true)
    (hresp : (runCrawlLoop oracle).response = some body)
    (hempty : resolveResults body = []) :
    (handleCallTool "crawl_urls" args oracle).result =
      Except.ok { content := [{ ttype := "text", text := "" }], isError := none } := by
  have ht : body.isTruthy = true := resolveResults_nil_truthy body hempty
  rw [handleCallTool_result args oracle hv]
  simp [dispatchTry, hresp, dispatchSuccessBody, ht, hempty, runCatch]
  rfl

/-- The service body `{results: []}`. -/
def bodyEmptyResults : Json := .obj [("results", .arr [])]

/-- Oracle whose first attempt succeeds with `{results: []}`. -/
def oracleEmptyResults : Nat → AttemptOutcome := fun _ => .success bodyEmptyResults

theorem empty_results_empty_reply_witness :
    isValidCrawlRequest argsSample = true ∧
    (runCrawlLoop oracleEmptyResults).response = some bodyEmptyResults ∧
    resolveResults bodyEmptyResults = [] ∧
    (handleCallTool "crawl_urls" argsSample oracleEmptyResults).result =
      Except.ok { content := [{ ttype := "text", text := "" }], isError := none } :=
  ⟨rfl, rfl, rfl,
   empty_results_empty_reply argsSample oracleEmptyResults bodyEmptyResults rfl rfl rfl⟩

/-- C7: a transport success whose body is null raises the
`InternalError`-class `McpError`; no further attempt is issued, and the
fault is re-thrown by the catch block as a protocol-level error, never
wrapped into a soft `isError` reply. -/
theorem empty_body_internal_fault (args : Option Json) (oracle : Nat → AttemptOutcome)
    (hv : isValidCrawlRequest args = true)
    (hresp : (runCrawlLoop oracle).response = some Json.null) :
    (handleCallTool "crawl_urls" args oracle).result =
      Except.error (.mcp .InternalError "Empty response from crawling service") ∧
    (handleCallTool "crawl_urls" args oracle).attemptsMade = (runCrawlLoop oracle).attempts ∧
    (∀ r : ToolCallResult, (handleCallTool "crawl_urls" args oracle).result ≠ Except.ok r) := by
  have hres : (handleCallTool "crawl_urls" args oracle).result =
      Except.error (.mcp .InternalError "Empty response from crawling service") := by
    rw [handleCallTool_result args oracle hv]
    simp [dispatchTry, hresp, dispatchSuccessBody, Json.isTruthy, runCatch, catchHandler]
  refine ⟨hres, handleCallTool_attempts args oracle hv, ?_⟩
  intro r hcontra
  rw [hres] at hcontra
  exact Except.noConfusion hcontra

/-- Oracle whose first attempt succeeds with a null body. -/
def oracleNullBody : Nat → AttemptOutcome := fun _ => .success Json.null

theorem empty_body_internal_fault_witness :
    isValidCrawlRequest argsSample = true ∧
    (runCrawlLoop oracleNullBody).response = some Json.null ∧
    (handleCallTool "crawl_urls" argsSample oracleNullBody).result =
      Except.error (.mcp .InternalError "Empty response from crawling service") ∧
    (handleCallTool "crawl_urls" argsSample oracleNullBody).attemptsMade = 1 :=
  ⟨rfl, rfl,
   (empty_body_internal_fault argsSample oracleNullBody rfl rfl).1,
   (empty_body_internal_fault argsSample oracleNullBody rfl rfl).2.1⟩

lemma jsTypeof_string_iff (u : Json) :
    (u.jsTypeof == "string") = true ↔ ∃ s, u = Json.str s := by
  cases u <;> simp [Json.jsTypeof]

lemma isValidCrawlRequest_iff (args : Option Json) :
    isValidCrawlRequest args = true ↔
      ∃ fields urls, args = some (Json.obj fields) ∧
        Json.getProp? (Json.obj fields) "urls" = some (Json.arr urls) ∧
        ∀ u ∈ urls, ∃ s, u = Json.str s := by
  cases args with
  | none => simp [isValidCrawlRequest]
  | some j =>
    cases j with
    | obj fields =>
      rcases hp : Json.getProp? (Json.obj fields) "urls" with _ | v
      · simp [isValidCrawlRequest, Json.isTruthy, Json.jsTypeof, hp]
      · cases v with
        | arr us =>
          simp only [isValidCrawlRequest, Json.isTruthy, Json.jsTypeof, hp,
            Bool.not_true, Bool.false_eq_true, if_false, bne_self_eq_false,
            List.all_eq_true, Option.some.injEq, Json.obj.injEq, Json.arr.injEq]
          constructor
          · intro hall
            refine ⟨fields, us, rfl, hp, ?_⟩
            intro u hu
            have h := hall u hu
            cases u with
            | str s => exact ⟨s, rfl⟩
            | null => simp at h
            | bool b => simp at h
            | num n => simp at h
            | arr es => simp at h
            | obj fs => simp at h
          · rintro ⟨f, u2, rfl, hg, hs⟩
            intro u hu
            rw [hp] at hg
            obtain rfl : us = u2 := Json.arr.inj (Option.some.inj hg)
            obtain ⟨s, rfl⟩ := hs u hu
            rfl
        | null => simp [isValidCrawlRequest, Json.isTruthy, Json.jsTypeof, hp]
        | bool b => simp [isValidCrawlRequest, Json.isTruthy, Json.jsTypeof, hp]
        | num n => simp [isValidCrawlRequest, Json.isTruthy, Json.jsTypeof, hp]
        | str s => simp [isValidCrawlRequest, Json.isTruthy, Json.jsTypeof, hp]
        | obj fs => simp [isValidCrawlRequest, Json.isTruthy, Json.jsTypeof, hp]
    | null => simp [isValidCrawlRequest, Json.isTruthy]
    | bool b => simp [isValidCrawlRequest, Json.isTruthy, Json.jsTypeof]
    | num n => simp [isValidCrawlRequest, Json.isTruthy, Json.jsTypeof]
    | str s => simp [isValidCrawlRequest, Json.isTruthy, Json.jsTypeof]
    | arr rs => simp [isValidCrawlRequest, Json.isTruthy, Json.jsTypeof, Json.getProp?]

/-- C6: a call for any tool other than crawl_urls raises a MethodNotFound
fault with zero transport attempts; a call whose arguments are not an
object carrying a `urls` array of strings raises an InvalidParams fault
with zero transport attempts; and an empty `urls` sequence is accepted by
validation rather than rejected. -/
theorem validation_faults (toolName : String) (args : Option Json)
    (oracle : Nat → AttemptOutcome) :
    (toolName ≠ "crawl_urls" →
      handleCallTool toolName args oracle =
        ⟨.error (.mcp .MethodNotFound ("Unknown tool: " ++ toolName)), 0, []⟩) ∧
    (isValidCrawlRequest args = false →
      handleCallTool "crawl_urls" args oracle =
        ⟨.error (.mcp .InvalidParams "Invalid crawl request parameters"), 0, []⟩) ∧
    ((¬ ∃ fields urls, args = some (Json.obj fields) ∧
        Json.getProp? (Json.obj fields) "urls" = some (Json.arr urls) ∧
        ∀ u ∈ urls, ∃ s, u = Json.str s) →
      isValidCrawlRequest args = false) ∧
    isValidCrawlRequest (some (Json.obj [("urls", Json.arr [])])) = true := by
  refine ⟨?_, ?_, ?_, rfl⟩
  · intro hne
    simp [handleCallTool, bne_iff_ne, hne]
  · intro hf
    simp [handleCallTool, hf]
  · intro hno
    cases hvb : isValidCrawlRequest args with
    | false => rfl
    | true => exact absurd ((isValidCrawlRequest_iff args).1 hvb) hno

theorem validation_faults_witness :
    ("resize_image" ≠ "crawl_urls") ∧
    handleCallTool "resize_image" none oracleAllFail =
      ⟨.error (.mcp .MethodNotFound "Unknown tool: resize_image"), 0, []⟩ ∧
    isValidCrawlRequest (some (Json.obj [("urls", Json.str "not-an-array")])) = false ∧
    handleCallTool "crawl_urls" (some (Json.obj [("urls", Json.str "not-an-array")]))
        oracleAllFail =
      ⟨.error (.mcp .InvalidParams "Invalid crawl request parameters"), 0, []⟩ :=
  ⟨by decide,
   (validation_faults "resize_image" none oracleAllFail).1 (by decide),
   rfl,
   (validation_faults "crawl_urls" (some (Json.obj [("urls", Json.str "not-an-array")]))
     oracleAllFail).2.1 rfl⟩

/-- C9 counterexample: validation accepts a `urls` array containing the
empty string, so acceptance does not guarantee non-empty elements. -/
theorem empty_url_accepted_counterexample :
    isValidCrawlRequest (some (Json.obj [("urls", Json.arr [Json.str ""])])) = true ∧
    String.length "" = 0 :=
  ⟨rfl, rfl⟩

/-- C9 amended: every element of an accepted `urls` sequence is a string
(the sequence itself may be empty), but nothing forces the strings to be
non-empty — emptiness of elements is not validated. -/
theorem accepted_urls_all_strings (args : Option Json) (fields : List (String × Json))
    (urls : List Json)
    (hargs : args = some (Json.obj fields))
    (hv : isValidCrawlRequest args = true)
    (hurls : Json.getProp? (Json.obj fields) "urls" = some (Json.arr urls)) :
    urls.all (fun u => u.jsTypeof == "string") = true := by
  obtain ⟨f, us, he, hg, hs⟩ := (isValidCrawlRequest_iff args).1 hv
  rw [hargs] at he
  obtain rfl : fields = f := by
    have := Option.some.inj he
    exact Json.obj.inj this
  rw [hurls] at hg
  obtain rfl : urls = us := by
    have := Option.some.inj hg
    exact Json.arr.inj this
  rw [List.all_eq_true]
  intro u hu
  obtain ⟨s, rfl⟩ := hs u hu
  rfl

theorem accepted_urls_all_strings_witness :
    isValidCrawlRequest (some (Json.obj [("urls", Json.arr [Json.str "https://a.example"])])) = true ∧
    ([Json.str "https://a.example"].all (fun u => u.jsTypeof == "string")) = true :=
  ⟨rfl,
   accepted_urls_all_strings (some (Json.obj [("urls", Json.arr [Json.str "https://a.example"])]))
     [("urls", Json.arr [Json.str "https://a.example"])] [Json.str "https://a.example"]
     rfl rfl rfl⟩

/-- The value of a property of `j` when that property is present and
truthy, `none` otherwise (spec-side helper for the amended Normalizer
ordering). -/
def truthyProp (j : Json) (key : String) : Option Json :=
  match j.getProp? key with
  | some v => if v.isTruthy then some v else none
  | none => none

/-- The Normalizer's resolution order as amended: a truthy
`markdown_v2.markdown_with_citations` chain wins, else a truthy
`markdown` field, else a string item verbatim, else the sentinel text.
Presence alone is not enough — falsy values (empty string, 0, false,
null) fall through to the next rule. -/
def extractMarkdownSpec (j : Json) : Json :=
  match (truthyProp j "markdown_v2").bind (fun v => truthyProp v "markdown_with_citations") with
  | some w => w
  | none =>
    match truthyProp j "markdown" with
    | some m => m
    | none =>
      match j with
      | .str s => .str s
      | _ => .str "Error: No markdown content available for this URL"

lemma extractMarkdownSecond_spec (j : Json) :
    extractMarkdownSecond j =
      Except.ok
        (match truthyProp j "markdown" with
         | some m => m
         | none =>
           match j with
           | .str s => .str s
           | _ => .str "Error: No markdown content available for this URL") := by
  rcases hmd : j.getProp? "markdown" with _ | m
  · cases j <;> simp [extractMarkdownSecond, extractMarkdownThird, truthyProp, hmd]
  · cases hmt : m.isTruthy <;>
      cases j <;> simp [extractMarkdownSecond, extractMarkdownThird, truthyProp, hmd, hmt]

lemma extractMarkdown_not_null (j : Json) (h : j ≠ Json.null) :
    extractMarkdown j =
      (match j.getProp? "markdown_v2" with
       | some mv2 =>
         if mv2.isTruthy then
           match mv2.getProp? "markdown_with_citations" with
           | some mwc => if mwc.isTruthy then .ok mwc else extractMarkdownSecond j
           | none => extractMarkdownSecond j
         else extractMarkdownSecond j
       | none => extractMarkdownSecond j) := by
  cases j with
  | null => exact absurd rfl h
  | bool b => rfl
  | num n => rfl
  | str s => rfl
  | arr es => rfl
  | obj fs => rfl

lemma extractMarkdown_eq_spec (j : Json) (h : j ≠ Json.null) :
    extractMarkdown j = Except.ok (extractMarkdownSpec j) := by
  rw [extractMarkdown_not_null j h]
  rcases hm : j.getProp? "markdown_v2" with _ | v
  · simp [extractMarkdownSpec, truthyProp, hm, extractMarkdownSecond_spec]
  · cases hvt : v.isTruthy
    · simp [extractMarkdownSpec, truthyProp, hm, hvt, extractMarkdownSecond_spec]
    · rcases hw : v.getProp? "markdown_with_citations" with _ | w
      · simp [extractMarkdownSpec, truthyProp, hm, hvt, hw, extractMarkdownSecond_spec]
      · cases hwt : w.isTruthy
        · simp [extractMarkdownSpec, truthyProp, hm, hvt, hw, hwt, extractMarkdownSecond_spec]
        · simp [extractMarkdownSpec, truthyProp, hm, hvt, hw, hwt]

/-- C3 counterexample: the Normalizer checks truthiness, not presence.
A present-but-empty `markdown` field yields the sentinel rather than the
empty string, and a present-but-empty
`markdown_v2.markdown_with_citations` chain is skipped in favour of the
`markdown` field. -/
theorem normalizer_presence_counterexample :
    extractMarkdown (Json.obj [("markdown", Json.str "")]) =
      Except.ok (Json.str "Error: No markdown content available for this URL") ∧
    extractMarkdown (Json.obj
        [("markdown_v2", Json.obj [("markdown_with_citations", Json.str "")]),
         ("markdown", Json.str "B")]) =
      Except.ok (Json.str "B") :=
  ⟨rfl, rfl⟩

/-- C3 amended: for every non-null item, the Normalizer resolves in
order: a present and truthy `markdown_v2.markdown_with_citations` chain
verbatim, else a present and truthy `markdown` field verbatim, else a
string item verbatim, else the fixed sentinel string; falsy values
(such as the empty string) fall through rather than being returned.  It
performs no recursion or deep search beyond these shapes.  (On a null
item the code instead throws; see the C4 theorems.) -/
theorem normalizer_resolution_order (j : Json) (h : j ≠ Json.null) :
    extractMarkdown j = Except.ok (extractMarkdownSpec j) :=
  extractMarkdown_eq_spec j h

theorem normalizer_resolution_order_witness :
    (Json.obj [("markdown", Json.str "B")] ≠ Json.null) ∧
    extractMarkdown (Json.obj [("markdown", Json.str "B")]) = Except.ok (Json.str "B") :=
  ⟨fun hh => Json.noConfusion hh,
   normalizer_resolution_order (Json.obj [("markdown", Json.str "B")])
     (fun hh => Json.noConfusion hh)⟩

/-- Whether the Normalizer returned normally (no thrown exception). -/
def isOkResult : Except JsError Json → Bool
  | .ok _ => true
  | .error _ => false

/-- C4 counterexample: the Normalizer is not total — on a null item the
property access `result.markdown_v2` throws a `TypeError`; and a truthy
non-string `markdown` value is returned as-is, so the result is not
always a string. -/
theorem normalizer_not_total_counterexample :
    extractMarkdown Json.null =
      Except.error (JsError.typeError "Cannot read properties of null (reading markdown_v2)") ∧
    extractMarkdown (Json.obj [("markdown", Json.num 5)]) = Except.ok (Json.num 5) :=
  ⟨rfl, rfl⟩

/-- C4 amended: for every non-null item the Normalizer returns a value
and never throws; unrecognized shapes degrade to the sentinel rather
than raising.  (On null input it throws a `TypeError` instead, and a
truthy non-string field value is passed through unchanged.) -/
theorem normalizer_total_amended (j : Json) (h : j ≠ Json.null) :
    isOkResult (extractMarkdown j) = true := by
  rw [extractMarkdown_eq_spec j h]
  rfl

theorem normalizer_total_amended_witness :
    (Json.obj [] ≠ Json.null) ∧ isOkResult (extractMarkdown (Json.obj [])) = true :=
  ⟨fun hh => Json.noConfusion hh,
   normalizer_total_amended (Json.obj []) (fun hh => Json.noConfusion hh)⟩

/-- The first truthy value of an optional chain, `none` when absent or
falsy (spec-side helper for the amended message priority). -/
def truthyOrNone (o : Option Json) : Option Json :=
  match o with
  | some v => if v.isTruthy then some v else none
  | none => none

/-- Message priority as amended: the response data's `message` field when
present and truthy, else its `detail` field when present and truthy, else
the transport error's own message text. -/
def priorityMessageSpec (ae : AxiosErr) : String :=
  match (truthyOrNone (respDataField ae "message")).orElse
      (fun _ => truthyOrNone (respDataField ae "detail")) with
  | some v => v.jsToString
  | none => ae.message

lemma pickMessage_eq_spec (ae : AxiosErr) :
    pickMessage ae = priorityMessageSpec ae := by
  rcases hm : respDataField ae "message" with _ | v
  · rcases hd : respDataField ae "detail" with _ | w
    · simp [pickMessage, priorityMessageSpec, jsOrValue, truthyOrNone, hm, hd, Option.orElse]
    · cases hwt : w.isTruthy <;>
        simp [pickMessage, priorityMessageSpec, jsOrValue, truthyOrNone, hm, hd, hwt,
          Option.orElse]
  · cases hvt : v.isTruthy
    · rcases hd : respDataField ae "detail" with _ | w
      · simp [pickMessage, priorityMessageSpec, jsOrValue, truthyOrNone, hm, hvt, hd,
          Option.orElse]
      · cases hwt : w.isTruthy <;>
          simp [pickMessage, priorityMessageSpec, jsOrValue, truthyOrNone, hm, hvt, hd, hwt,
            Option.orElse]
    · simp [pickMessage, priorityMessageSpec, jsOrValue, truthyOrNone, hm, hvt, Option.orElse]

/-- C5 counterexample: the catch block picks the message by truthiness,
not by presence — with a service body carrying `message: ""` and
`detail: "boom"`, the reported text uses `"boom"`, not the provided
(empty) `message` field. -/
def axErrMsgEmpty : AxiosErr :=
  ⟨some ⟨500, Json.obj [("message", Json.str ""), ("detail", Json.str "boom")]⟩,
   some ⟨some "post", some "http://127.0.0.1:11235/crawl_direct"⟩,
   "Request failed with status code 500"⟩

theorem message_priority_counterexample :
    catchHandler (.axios axErrMsgEmpty) =
      Except.ok
        { content :=
            [{ ttype := "text",
               text := "Crawling service error (500) for POST http://127.0.0.1:11235/crawl_direct: boom" }],
          isError := some true } :=
  rfl

/-- C5 amended: after retry exhaustion, every axios transport error is
turned into a non-throwing soft reply (`isError: true`) whose text embeds
the status code text, the attempted method and URL, and the first truthy
message among the service `message` field, the service `detail` field and
the transport error text; every non-axios error is re-raised unchanged. -/
theorem transport_error_reporting (e : JsError) :
    (∀ ae : AxiosErr, e = .axios ae →
      catchHandler e =
        Except.ok
          { content :=
              [{ ttype := "text",
                 text := "Crawling service error (" ++ statusCodeText ae ++ ") for "
                   ++ requestInfoText ae ++ ": " ++ priorityMessageSpec ae }],
            isError := some true }) ∧
    ((∀ ae : AxiosErr, e ≠ .axios ae) → catchHandler e = Except.error e) := by
  constructor
  · rintro ae rfl
    simp [catchHandler, pickMessage_eq_spec]
  · intro hne
    cases e with
    | axios ae => exact absurd rfl (hne ae)
    | mcp c m => rfl
    | typeError m => rfl
    | other m => rfl

/-- An HTTP 500 axios error whose body is `{detail:"boom"}` (P9). -/
def axErr500 : AxiosErr :=
  ⟨some ⟨500, Json.obj [("detail", Json.str "boom")]⟩,
   some ⟨some "post", some "http://127.0.0.1:11235/crawl_direct"⟩,
   "Request failed with status code 500"⟩

theorem transport_error_reporting_witness :
    catchHandler (.axios axErr500) =
      Except.ok
        { content :=
            [{ ttype := "text",
               text := "Crawling service error (500) for POST http://127.0.0.1:11235/crawl_direct: boom" }],
          isError := some true } ∧
    catchHandler (.mcp .InternalError "Empty response from crawling service") =
      Except.error (.mcp .InternalError "Empty response from crawling service") :=
  ⟨(transport_error_reporting (.axios axErr500)).1 axErr500 rfl,
   (transport_error_reporting (.mcp .InternalError "Empty response from crawling service")).2
     (fun _ hh => JsError.noConfusion hh)⟩

/-- C8 counterexample: the per-attempt crawl POST carries no 60-second
timeout — the retry loop posts through the bare axios client with only
headers configured, so no client-side timeout applies. -/
theorem post_timeout_counterexample :
    (crawlPostRequestConfig (some "secret-token")).timeout = none ∧
    (axiosInstanceConfig "http://127.0.0.1:11235" (some "secret-token")).timeout = some 60000 :=
  ⟨rfl, rfl⟩

/-- C8 amended: the outbound crawl POST attempts are issued with no
request timeout at all (the axios default); the fixed 60-second timeout
is configured only on the separate axios instance that serves the
startup health probe. -/
theorem timeout_configuration (apiUrl : String) (authToken : Option String) :
    (crawlPostRequestConfig authToken).timeout = none ∧
    (axiosInstanceConfig apiUrl authToken).timeout = some 60000 :=
  ⟨rfl, rfl⟩

end Crawl4ai
